import Mathlib

set_option maxHeartbeats 1000000

/-!
Verification development for the jimeng-api gateway.

The generation pipeline is shallowly embedded: pure route logic and the
orchestration control flow are translated into executable Lean functions,
effectful calls (HTTP requests, credit queries, uploads) are resolved
against an explicit environment record, and each run produces the trace of
requests it would issue together with its outcome.  External library
primitives that live outside the verified sources (Node's crypto, lodash
base64 helpers, the AWS signer) are either taken as function parameters or
modelled from the specification, as noted on each definition.
-/

namespace JimengApi

/-- Decidable equality for `Except`, used to evaluate concrete runs. -/
instance {ε α : Type} [DecidableEq ε] [DecidableEq α] : DecidableEq (Except ε α)
  | .error x, .error y =>
    if h : x = y then .isTrue (by rw [h]) else .isFalse (fun hc => h (by cases hc; rfl))
  | .error _, .ok _ => .isFalse (fun hc => by cases hc)
  | .ok _, .error _ => .isFalse (fun hc => by cases hc)
  | .ok x, .ok y =>
    if h : x = y then .isTrue (by rw [h]) else .isFalse (fun hc => h (by cases hc; rfl))

/-! ### JavaScript value modelling -/

/-- A JavaScript value as far as the validated request fields care:
`undefined`, a string, a finite number (represented as a rational), or
anything else (objects, arrays, booleans, ...). -/
inductive JVal where
  | undef
  | str (s : String)
  | num (q : ℚ)
  | other
  deriving DecidableEq

/-- `_.isString` on a `JVal`, returning the string when present. -/
def jvalString? : JVal → Option String
  | .str s => some s
  | _ => none

/-- Decimal value of a list of ASCII digits. -/
def digitsToNat (ds : List Char) : Nat :=
  ds.foldl (fun n c => n * 10 + (c.toNat - '0'.toNat)) 0

/-- Hexadecimal digit value. -/
def hexDigitToNat (c : Char) : Nat :=
  if c.isDigit then c.toNat - '0'.toNat
  else if 'a' ≤ c ∧ c ≤ 'f' then c.toNat - 'a'.toNat + 10
  else c.toNat - 'A'.toNat + 10

/-- Hexadecimal value of a list of hex digits. -/
def hexDigitsToNat (ds : List Char) : Nat :=
  ds.foldl (fun n c => n * 16 + hexDigitToNat c) 0

/-- Whether a character is a hexadecimal digit. -/
def isHexDigit (c : Char) : Bool :=
  c.isDigit || ('a' ≤ c && c ≤ 'f') || ('A' ≤ c && c ≤ 'F')

/-- The unsigned part of ECMAScript `parseInt(s)` with no radix argument:
an optional `0x`/`0X` selects base 16, otherwise leading decimal digits are
read; no digits gives `NaN` (`none`). -/
def parseIntUnsigned : List Char → Option Nat
  | '0' :: 'x' :: rest =>
    let ds := rest.takeWhile isHexDigit
    if ds.isEmpty then none else some (hexDigitsToNat ds)
  | '0' :: 'X' :: rest =>
    let ds := rest.takeWhile isHexDigit
    if ds.isEmpty then none else some (hexDigitsToNat ds)
  | cs =>
    let ds := cs.takeWhile Char.isDigit
    if ds.isEmpty then none else some (digitsToNat ds)

/-- ECMAScript `parseInt(s)` (radix auto-detection, leading whitespace and
sign handling, trailing garbage ignored); `none` models `NaN`. -/
def parseIntJS (s : String) : Option Int :=
  match s.data.dropWhile Char.isWhitespace with
  | '-' :: rest => (parseIntUnsigned rest).map (fun n => -(n : Int))
  | '+' :: rest => (parseIntUnsigned rest).map (fun n => (n : Int))
  | rest => (parseIntUnsigned rest).map (fun n => (n : Int))

example : parseIntJS "10" = some 10 := by decide
example : parseIntJS "  7abc" = some 7 := by decide
example : parseIntJS "x" = none := by decide

/-! ### POST /v1/videos/generations — duration validation and file path
precedence (src/src/api/routes/videos.ts) -/

/-- The `body.duration` validator of `POST /v1/videos/generations`
(src/src/api/routes/videos.ts lines 24-36): `undefined` passes; on a
multipart request a string value is fed through `parseInt`; otherwise only
finite numbers are considered; the resulting number must be an integer in
`4..15`. -/
def validateDurationField (isMultiPart : Bool) (v : JVal) : Bool :=
  match v with
  | .undef => true
  | .str s =>
    if isMultiPart then
      match parseIntJS s with
      | none => false
      | some n => decide (4 ≤ n ∧ n ≤ 15)
    else false
  | .num q => decide (q.den = 1 ∧ 4 ≤ q ∧ q ≤ 15)
  | .other => false

example : validateDurationField true (.str "10") = true := by decide
example : validateDurationField false (.num 3) = false := by decide
example : validateDurationField false (.num 15) = true := by decide

/-- The value handed to `generateVideo` as `filePaths`
(src/src/api/routes/videos.ts lines 54-71): destructuring defaults both
`file_paths` and `filePaths` to `[]`, then `filePaths.length > 0 ?
filePaths : file_paths`. -/
def finalFilePaths (file_paths filePaths : Option (List String)) : List String :=
  let fp := file_paths.getD []
  let fps := filePaths.getD []
  if fps.length > 0 then fps else fp

example : finalFilePaths (some ["a"]) (some ["b"]) = ["b"] := by decide
example : finalFilePaths (some ["a"]) none = ["a"] := by decide
example : finalFilePaths (some ["a"]) (some []) = ["a"] := by decide

/-! ### normalizeImageInput (src/unnamed/part_008 lines 10-49) -/

/-- An image entry of the JSON body of `POST /v1/images/compositions`:
a string, an object with the recognized keys, or anything else. -/
structure ImageObject where
  b64_json : JVal
  base64 : JVal
  image_base64 : JVal
  image_bytes : JVal
  url : JVal
  deriving DecidableEq

/-- The dynamic input type of `normalizeImageInput`. -/
inductive ImageInputVal where
  | str (s : String)
  | obj (o : ImageObject)
  | other
  deriving DecidableEq

/-- Result of `normalizeImageInput`: a decoded byte buffer, a (trimmed)
string, or the untouched original value. -/
inductive NormalizedImage where
  | buffer (bytes : List Nat)
  | str (s : String)
  | raw (v : ImageInputVal)
  deriving DecidableEq

/-- The helpers `util.isBASE64Data`, `util.isBASE64` (src/lib/util.ts) and
`base64ToBuffer` (src/lib/message-parser.ts) are not under src/; the
normalization logic under verification only calls them opaquely, so they
are carried as parameters. -/
structure B64Env where
  isBASE64Data : String → Bool
  isBASE64 : String → Bool
  base64ToBuffer : String → List Nat

/-- `trimmed.replace(/\s+/g, "")`: drop all whitespace characters. -/
def stripWhitespace (s : String) : String :=
  String.mk (s.data.filter (fun c => !c.isWhitespace))

/-- The string branch of `normalizeImageInput` (src/unnamed/part_008 lines
11-24): trim, detect a data-URI or a bare base64 string (after removing
interior whitespace), else return the trimmed string. -/
def normalizeImageString (e : B64Env) (s : String) : NormalizedImage :=
  let trimmed := s.trim
  let normalizedBase64 := stripWhitespace trimmed
  if e.isBASE64Data trimmed then .buffer (e.base64ToBuffer trimmed)
  else if normalizedBase64 ≠ "" && e.isBASE64 normalizedBase64 then
    .buffer (e.base64ToBuffer normalizedBase64)
  else .str trimmed

/-- `normalizeImageInput` (src/unnamed/part_008 lines 10-49).  The object
branch checks `b64_json`, `base64`, `image_base64`, `image_bytes`, `url` in
that order; the recursive call on `url` always lands in the string branch,
so it is expressed through `normalizeImageString`. -/
def normalizeImageInput (e : B64Env) (v : ImageInputVal) : NormalizedImage :=
  match v with
  | .str s => normalizeImageString e s
  | .obj o =>
    match jvalString? o.b64_json with
    | some s => .buffer (e.base64ToBuffer s)
    | none =>
    match jvalString? o.base64 with
    | some s => .buffer (e.base64ToBuffer s)
    | none =>
    match jvalString? o.image_base64 with
    | some s => .buffer (e.base64ToBuffer s)
    | none =>
    match jvalString? o.image_bytes with
    | some s => .buffer (e.base64ToBuffer s)
    | none =>
    match jvalString? o.url with
    | some s => normalizeImageString e s
    | none => .raw v
  | .other => .raw v

/-- Specification-side reading of the object branch: the first key, in the
fixed order `b64_json`, `base64`, `image_base64`, `image_bytes`, whose
value is a string. -/
def firstBase64Key (o : ImageObject) : Option String :=
  match jvalString? o.b64_json with
  | some s => some s
  | none =>
  match jvalString? o.base64 with
  | some s => some s
  | none =>
  match jvalString? o.image_base64 with
  | some s => some s
  | none => jvalString? o.image_bytes

/-! ### getModel (src/unnamed/part_009 lines 105-112) -/

/-- Association list lookup, modelling a JS object used as a map. -/
def lookupTable (t : List (String × String)) (k : String) : Option String :=
  (t.find? (fun p => p.1 == k)).map (fun p => p.2)

/-- JS `a || b` on possibly-undefined strings: `undefined` and `""` are
falsy. -/
def jsOrStr : Option String → Option String → Option String
  | some v, d => if v = "" then d else some v
  | none, d => d

/-- `Object.keys(modelMap).join(', ')`. -/
def joinKeys (t : List (String × String)) : String :=
  String.intercalate ", " (t.map (fun p => p.1))

/-- The error message thrown by `getModel` for an unknown model on an
international token, listing the supported models. -/
def unsupportedModelMessage (t : List (String × String)) (m : String) : String :=
  "国际版不支持模型 \"" ++ m ++ "\"。支持的模型: " ++ joinKeys t

/-- `getModel` (src/unnamed/part_009 lines 105-112).  The two model tables
live in src/api/consts/common.ts, which is not under src/, so they are
parameters; the selection and fallback logic is from the source. -/
def getModel (mapCN mapUS : List (String × String)) (defaultModel m : String)
    (isInternational : Bool) : Except String (Option String) :=
  let modelMap := if isInternational then mapUS else mapCN
  if isInternational && (lookupTable modelMap m).isNone then
    .error (unsupportedModelMessage modelMap m)
  else
    .ok (jsOrStr (lookupTable modelMap m) (lookupTable modelMap defaultModel))

example :
    getModel [("a", "ma")] [("b", "mb")] "a" "zzz" false = .ok (some "ma") := by decide
example :
    getModel [("a", "ma")] [("b", "mb")] "a" "zzz" true =
      .error (unsupportedModelMessage [("b", "mb")] "zzz") := by decide

/-! ### jimeng-4.0 multi-image prompt recognition (src/unnamed/part_009
lines 427-432 and 617) -/

/-- The leftmost match of the regular expression `(\d+)张` in a character
list, returning the captured digit run.  At each start position the greedy
`\d+` consumes the maximal digit run; backtracking inside the run can never
succeed (every shorter attempt ends on a digit, not on `张`), so a position
matches exactly when its maximal digit run is followed by `张`. -/
def firstDigitsZhang : List Char → Option (List Char)
  | [] => none
  | c :: rest =>
    let run := (c :: rest).takeWhile Char.isDigit
    if run.isEmpty then firstDigitsZhang rest
    else if ((c :: rest).drop run.length).head? = some '张' then some run
    else firstDigitsZhang rest

/-- `/\d+张/.test(prompt)`. -/
def hasDigitsZhang (p : List Char) : Bool :=
  (firstDigitsZhang p).isSome

/-- `prompt.match(/(\d+)张/) ? parseInt(match[1]) : 4`
(src/unnamed/part_009 line 617). -/
def targetImageCount (p : List Char) : Nat :=
  match firstDigitsZhang p with
  | some ds => digitsToNat ds
  | none => 4

/-- JS `String.prototype.includes`: whether `pat` occurs contiguously. -/
def containsSeq (pat : List Char) : List Char → Bool
  | [] => pat.isEmpty
  | c :: rest => pat.isPrefixOf (c :: rest) || containsSeq pat rest

/-- The `isJimeng40MultiImage` flag (src/unnamed/part_009 lines 427-432). -/
def isJimeng40MultiImage (m : String) (p : List Char) : Bool :=
  m == "jimeng-4.0" &&
    (containsSeq "连续".data p || containsSeq "绘本".data p ||
      containsSeq "故事".data p || hasDigitsZhang p)

example : targetImageCount "生成6张关于...".data = 6 := by decide
example : targetImageCount "讲一个故事".data = 4 := by decide
example : isJimeng40MultiImage "jimeng-4.0" "画一个绘本".data = true := by decide
example : isJimeng40MultiImage "jimeng-3.0" "画一个绘本".data = false := by decide
example : firstDigitsZhang "12a3张x".data = some ['3'] := by decide

/-! ### AWS signing (modelled) -/

/-- Modelled from the spec: `createSignature` lives in
src/lib/aws-signature.ts, which is not under src/.  Per spec section 4.2 the
Authorization value is a function of the method, the url, the signed
headers, the credentials, the region, and the SHA-256 hex payload hash of
the supplied payload; this record retains the components the claims speak
about, in particular the payload hash embedded in the signature. -/
structure AwsAuthorization where
  method : String
  url : String
  payloadHash : String
  region : String
  deriving DecidableEq

/-- Modelled from the spec: the signature computation hashes the payload it
is given (spec section 4.2, "a SHA-256 hex payload hash").  The hash
function itself is Node's crypto primitive and is carried as a parameter. -/
def createSignature (sha256hex : String → String)
    (method url payload awsRegion : String) : AwsAuthorization :=
  { method := method, url := url, payloadHash := sha256hex payload,
    region := awsRegion }

/-! ### uploadImageBuffer (src/src/lib/image-uploader.ts) -/

/-- The parsed body of `POST /mweb/v1/get_upload_token`. -/
structure TokenResult where
  access_key_id : String
  secret_access_key : String
  session_token : String
  service_id : String
  space_name : String
  deriving DecidableEq

/-- One entry of `UploadAddress.StoreInfos`. -/
structure StoreInfo where
  StoreUri : String
  Auth : String
  deriving DecidableEq

/-- `Result.UploadAddress` of the ApplyImageUpload response. -/
structure UploadAddress where
  StoreInfos : List StoreInfo
  UploadHosts : List String
  SessionKey : String
  deriving DecidableEq

/-- The parsed ApplyImageUpload JSON: `ResponseMetadata.Error` (stringified
when present) and `Result.UploadAddress`. -/
structure ApplyBody where
  responseError : Option String
  uploadAddress : Option UploadAddress
  deriving DecidableEq

/-- One entry of `Result.Results` of the CommitImageUpload response. -/
structure CommitEntry where
  UriStatus : Int
  Uri : String
  deriving DecidableEq

/-- The parsed CommitImageUpload JSON. -/
structure CommitBody where
  responseError : Option String
  results : Option (List CommitEntry)
  deriving DecidableEq

/-- The CommitImageUpload request as issued: its url, the
`x-amz-content-sha256` header, the exact body string, and the
Authorization signature. -/
structure CommitRequest where
  url : String
  xAmzContentSha256 : String
  body : String
  signature : AwsAuthorization
  deriving DecidableEq

/-- One request issued during an upload. -/
inductive UploadReq where
  | getUploadToken
  | applyUpload (url : String) (auth : AwsAuthorization)
  | putObject (url : String)
  | commitUpload (r : CommitRequest)
  deriving DecidableEq

/-- The throw sites of `uploadImageBuffer`, in source order. -/
inductive UploadErr where
  | requestThrown (msg : String)
  | tokenMissingFields
  | applyFetchFailed (msg : String)
  | applyNotOk
  | applyResponseError (msg : String)
  | missingUploadAddress
  | storeInfoMissing
  | putFetchFailed (msg : String)
  | putNotOk
  | commitFetchFailed (msg : String)
  | commitNotOk
  | commitResponseError (msg : String)
  | commitNoResults
  | commitBadStatus (uriStatus : Int)
  | other (msg : String)
  deriving DecidableEq

/-- The environment one upload runs against: the response of each remote
call, the clock/random strings, and the region-derived strings.
`getServiceId` stands for `RegionUtils.getServiceId` (src/lib/region-utils.ts
is not under src/; per spec section 4.4 it applies the regional override to
the service id from token issuance). -/
structure UploadWorld where
  tokenResult : Except String TokenResult
  applyResponse : Except String (Bool × ApplyBody)
  putResponse : Except String Bool
  commitResponse : Except String (Bool × CommitBody)
  timestamp : String
  commitTimestamp : String
  randomStr : String
  getServiceId : String → String
  imagexHost : String
  awsRegion : String

/-- The observable behaviour of one upload: the requests issued in order
and either the committed `Uri` or the thrown error. -/
structure UploadRun where
  trace : List UploadReq
  result : Except UploadErr String

/-- `uploadImageBuffer` (src/src/lib/image-uploader.ts lines 21-234),
resolved against an `UploadWorld`.  `sha256hex` abstracts Node's
`crypto.createHash('sha256')...digest('hex')`; `fileSize` is
`imageBuffer.byteLength`.  The outer try/catch only logs and rethrows, so
it is not represented. -/
def uploadImageBufferRun (sha256hex : String → String) (w : UploadWorld)
    (isInternational : Bool) (fileSize : Nat) : UploadRun :=
  match w.tokenResult with
  | .error m => ⟨[.getUploadToken], .error (.requestThrown m)⟩
  | .ok t =>
    let service_id := if isInternational then t.space_name else t.service_id
    if t.access_key_id == "" || t.secret_access_key == "" || t.session_token == "" then
      ⟨[.getUploadToken], .error .tokenMissingFields⟩
    else
      let actualServiceId := w.getServiceId service_id
      let applyUrl := w.imagexHost ++ "/?Action=ApplyImageUpload&Version=2018-08-01&ServiceId="
        ++ actualServiceId ++ "&FileSize=" ++ toString fileSize ++ "&s=" ++ w.randomStr
        ++ (if isInternational then "&device_platform=web" else "")
      let applyAuth := createSignature sha256hex "GET" applyUrl "" w.awsRegion
      let tr1 : List UploadReq := [.getUploadToken, .applyUpload applyUrl applyAuth]
      match w.applyResponse with
      | .error m => ⟨tr1, .error (.applyFetchFailed m)⟩
      | .ok (applyOk, body) =>
        if !applyOk then ⟨tr1, .error .applyNotOk⟩
        else match body.responseError with
        | some e => ⟨tr1, .error (.applyResponseError e)⟩
        | none =>
          match body.uploadAddress with
          | none => ⟨tr1, .error .missingUploadAddress⟩
          | some ua =>
            match ua.StoreInfos.head?, ua.UploadHosts.head? with
            | some si, some host =>
              let uploadUrl := "https://" ++ host ++ "/upload/v1/" ++ si.StoreUri
              let tr2 := tr1 ++ [.putObject uploadUrl]
              match w.putResponse with
              | .error m => ⟨tr2, .error (.putFetchFailed m)⟩
              | .ok putOk =>
                if !putOk then ⟨tr2, .error .putNotOk⟩
                else
                  let commitUrl := w.imagexHost
                    ++ "/?Action=CommitImageUpload&Version=2018-08-01&ServiceId="
                    ++ actualServiceId
                  let commitPayload := "\x7b\"SessionKey\":\"" ++ ua.SessionKey ++ "\"\x7d"
                  let payloadHash := sha256hex commitPayload
                  let commitAuth :=
                    createSignature sha256hex "POST" commitUrl commitPayload w.awsRegion
                  let creq : CommitRequest :=
                    ⟨commitUrl, payloadHash, commitPayload, commitAuth⟩
                  let tr3 := tr2 ++ [.commitUpload creq]
                  match w.commitResponse with
                  | .error m => ⟨tr3, .error (.commitFetchFailed m)⟩
                  | .ok (commitOk, cbody) =>
                    if !commitOk then ⟨tr3, .error .commitNotOk⟩
                    else match cbody.responseError with
                    | some e => ⟨tr3, .error (.commitResponseError e)⟩
                    | none =>
                      match cbody.results with
                      | none => ⟨tr3, .error .commitNoResults⟩
                      | some rs =>
                        match rs.head? with
                        | none => ⟨tr3, .error .commitNoResults⟩
                        | some r0 =>
                          if r0.UriStatus == 2000 then ⟨tr3, .ok r0.Uri⟩
                          else ⟨tr3, .error (.commitBadStatus r0.UriStatus)⟩
            | _, _ => ⟨tr1, .error .storeInfoMissing⟩

/-! ### Draft documents (src/unnamed/part_009) -/

/-- `large_image_info` of a core parameter block. -/
structure LargeImageInfo where
  height : Nat
  width : Nat
  resolution_type : String
  deriving DecidableEq

/-- The text-to-image `core_param` (src/unnamed/part_009 lines 440-457 and
673-690).  `model` is the mapped model id, which JS leaves `undefined` when
both table lookups miss. -/
structure GenCoreParam where
  model : Option String
  prompt : List Char
  negative_prompt : String
  seed : Nat
  sample_strength : ℚ
  image_ratio : Nat
  large_image_info : LargeImageInfo
  deriving DecidableEq

/-- The image-to-image `core_param` (src/unnamed/part_009 lines 181-196);
it carries no `negative_prompt` and no `seed`. -/
structure BlendCoreParam where
  model : Option String
  prompt : List Char
  sample_strength : ℚ
  image_ratio : Nat
  large_image_info : LargeImageInfo
  deriving DecidableEq

/-- One `ability_list` entry of a blend draft (src/unnamed/part_009 lines
248-266): the uploaded image id appears as `image_uri_list`, as the sole
`image_list` entry's `image_uri` and `uri`. -/
structure BlendAbility where
  name : String
  image_uri_list : List String
  image_uri : String
  uri : String
  strength : ℚ
  deriving DecidableEq

/-- One `prompt_placeholder_info_list` entry (src/unnamed/part_009 lines
267-271). -/
structure PromptPlaceholder where
  ability_index : Nat
  deriving DecidableEq

/-- The blend draft component submitted by `generateImageComposition`
(src/unnamed/part_009 lines 217-281); identifier fields (fresh uuids) and
constant metadata are not represented. -/
structure BlendDraft where
  core_param : BlendCoreParam
  ability_list : List BlendAbility
  prompt_placeholder_info_list : List PromptPlaceholder
  deriving DecidableEq

/-- The generate draft component submitted by the text-to-image paths
(src/unnamed/part_009 lines 478-512 and 644-695). -/
structure GenDraft where
  generate_type : String
  core_param : GenCoreParam
  deriving DecidableEq

/-- One request issued by a generation call. -/
inductive Req where
  | uploadStep (u : UploadReq)
  | creditGet
  | creditReceive
  | draftGenerateBlend (d : BlendDraft)
  | draftGenerateText (d : GenDraft)
  deriving DecidableEq

/-- Whether a trace contains an image-to-image `aigc_draft/generate`
request. -/
def hasBlendDraftReq (l : List Req) : Bool :=
  l.any fun r => match r with
    | .draftGenerateBlend _ => true
    | _ => false

/-- Whether a trace contains any `aigc_draft/generate` request. -/
def hasDraftReq (l : List Req) : Bool :=
  l.any fun r => match r with
    | .draftGenerateBlend _ => true
    | .draftGenerateText _ => true
    | _ => false

/-- The log lines the claims speak about. -/
inductive LogEntry where
  | nanobananaOverride
  | creditCheckFailed (msg : String)
  deriving DecidableEq

/-- The throw sites of the generation controllers. -/
inductive GenErr where
  | modelError (msg : String)
  | resolutionError (msg : String)
  | requestThrown (msg : String)
  | uploadFailed (index : Nat) (e : UploadErr)
  | noHistoryId
  deriving DecidableEq

/-- One row of the `RESOLUTION_OPTIONS` table. -/
structure RatioConfig where
  width : Nat
  height : Nat
  ratio : Nat
  deriving DecidableEq

/-- The resolution/ratio table type: resolution name to ratio name to
configuration.  The table itself lives in src/api/consts/common.ts, which is
not under src/, so runs are parametrized over it. -/
def ResolutionTable : Type :=
  List (String × List (String × RatioConfig))

/-- The `width`, `height`, `image_ratio`, `resolution_type` quadruple
produced by `getResolutionParams`. -/
structure ResParams where
  width : Nat
  height : Nat
  image_ratio : Nat
  resolution_type : String
  deriving DecidableEq

/-- Association lookup in the resolution table. -/
def lookupRes (t : ResolutionTable) (k : String) :
    Option (List (String × RatioConfig)) :=
  (t.find? (fun p => p.1 == k)).map (fun p => p.2)

/-- Association lookup in one resolution group. -/
def lookupRatio (g : List (String × RatioConfig)) (k : String) :
    Option RatioConfig :=
  (g.find? (fun p => p.1 == k)).map (fun p => p.2)

/-- `getResolutionParams` (src/unnamed/part_009 lines 85-104). -/
def getResolutionParams (t : ResolutionTable) (resolution ratio : String) :
    Except String ResParams :=
  match lookupRes t resolution with
  | none =>
    .error ("不支持的分辨率 \"" ++ resolution ++ "\"。支持的分辨率: "
      ++ String.intercalate ", " (t.map (fun p => p.1)))
  | some grp =>
    match lookupRatio grp ratio with
    | none =>
      .error ("在 \"" ++ resolution ++ "\" 分辨率下，不支持的比例 \"" ++ ratio
        ++ "\"。支持的比例: " ++ String.intercalate ", " (grp.map (fun p => p.1)))
    | some cfg =>
      .ok ⟨cfg.width, cfg.height, cfg.ratio, resolution⟩

/-- The environment a generation call runs against.  `α` is the client
image-input type; `upload` abstracts `processImageInput` (upload of one
input, returning its uri or throwing).  The model and resolution tables
live in src/api/consts/common.ts, which is not under src/, and are
therefore environment data; `seed` stands for `Math.floor(Math.random()*1e8)
+ 2.5e9`; `draftHistoryId` is the `aigc_data?.history_record_id` of the
`aigc_draft/generate` response (or the request's thrown error). -/
structure GenEnv (α : Type) where
  isInternational : Bool
  modelMapCN : List (String × String)
  modelMapUS : List (String × String)
  defaultModel : String
  resolutionOptions : ResolutionTable
  getCreditResult : Except String Int
  receiveCreditResult : Except String Unit
  upload : α → UploadRun
  seed : Nat
  draftHistoryId : Except String (Option String)

/-- The client options record of the image operations, before destructuring
defaults are applied. -/
structure GenOptions where
  ratio : Option String
  resolution : Option String
  sampleStrength : Option ℚ
  negativePrompt : Option String

/-- The best-effort credit step of `generateImageComposition`
(src/unnamed/part_009 lines 154-160): `getCredit`, then `receiveCredit`
when the balance is not positive, with every failure caught and logged. -/
def creditBestEffort {α : Type} (env : GenEnv α) : List Req × List LogEntry :=
  match env.getCreditResult with
  | .error m => ([.creditGet], [.creditCheckFailed m])
  | .ok total =>
    if total ≤ 0 then
      match env.receiveCreditResult with
      | .error m => ([.creditGet, .creditReceive], [.creditCheckFailed m])
      | .ok _ => ([.creditGet, .creditReceive], [])
    else ([.creditGet], [])

/-- The credit step of `generateImagesInternal` (src/unnamed/part_009 lines
421-423): the same calls but with no try/catch, so a failure propagates. -/
def creditStrict {α : Type} (env : GenEnv α) : List Req × Except String Unit :=
  match env.getCreditResult with
  | .error m => ([.creditGet], .error m)
  | .ok total =>
    if total ≤ 0 then
      match env.receiveCreditResult with
      | .error m => ([.creditGet, .creditReceive], .error m)
      | .ok _ => ([.creditGet, .creditReceive], .ok ())
    else ([.creditGet], .ok ())

/-- The upload loop of `generateImageComposition` (src/unnamed/part_009
lines 162-174): images are processed strictly in order; the first failure
is wrapped into an `APIException` and aborts the loop. -/
def uploadLoop {α : Type} (up : α → UploadRun) :
    List α → Nat → List Req × Except GenErr (List String)
  | [], _ => ([], .ok [])
  | x :: xs, i =>
    let r := up x
    match r.result with
    | .error e => (r.trace.map Req.uploadStep, .error (.uploadFailed i e))
    | .ok uri =>
      let rest := uploadLoop up xs (i + 1)
      (r.trace.map Req.uploadStep ++ rest.1,
        match rest.2 with
        | .error e => .error e
        | .ok uris => .ok (uri :: uris))

/-- A successful image-to-image submission: the blend draft handed to
`aigc_draft/generate`, the returned history id, and the `SmartPoller`
configuration (src/unnamed/part_009 lines 295-301). -/
structure CompSubmitted where
  draft : BlendDraft
  historyId : String
  expectedItemCount : Nat
  maxPollCount : Nat
  deriving DecidableEq

/-- The observable behaviour of `generateImageComposition` up to the point
where the poller is configured. -/
structure CompRun where
  trace : List Req
  logs : List LogEntry
  outcome : Except GenErr CompSubmitted

/-- A successful text-to-image submission; `usedMultiPath` records whether
the `generateJimeng40MultiImages` branch produced it. -/
structure ImagesSubmitted where
  draft : GenDraft
  historyId : String
  expectedItemCount : Nat
  maxPollCount : Nat
  usedMultiPath : Bool
  deriving DecidableEq

/-- The observable behaviour of the text-to-image controllers up to the
point where the poller is configured. -/
structure ImagesRun where
  trace : List Req
  logs : List LogEntry
  outcome : Except GenErr ImagesSubmitted

/-- The width/height/ratio selection shared by both controllers
(src/unnamed/part_009 lines 137-149 and 407-419): the `nanobanana` model
forces `1024x1024`, ratio code `1` and resolution type `"2k"` and emits the
override warning; every other model goes through `getResolutionParams`. -/
def resolveDims (t : ResolutionTable) (clientModel resolution ratio : String) :
    Except String ResParams × List LogEntry :=
  if clientModel == "nanobanana" then
    (.ok ⟨1024, 1024, 1, "2k"⟩, [.nanobananaOverride])
  else
    (getResolutionParams t resolution ratio, [])

/-- `generateImageComposition` (src/unnamed/part_009 lines 114-301) up to
the poller configuration: region/model mapping, the nanobanana override or
resolution lookup, the best-effort credit check, the sequential upload
loop, the blend draft construction, and the draft submission.  The prompt
is prefixed with `##`; the poller is configured with
`expectedItemCount = 1` and `maxPollCount = 900`. -/
def generateImageCompositionRun {α : Type} (env : GenEnv α) (clientModel : String)
    (prompt : List Char) (images : List α) (opts : GenOptions) : CompRun :=
  match getModel env.modelMapCN env.modelMapUS env.defaultModel clientModel
      env.isInternational with
  | .error m => ⟨[], [], .error (.modelError m)⟩
  | .ok model =>
    let ratio := opts.ratio.getD "1:1"
    let resolution := opts.resolution.getD "2k"
    let sampleStrength := opts.sampleStrength.getD (mkRat 1 2)
    let dims := resolveDims env.resolutionOptions clientModel resolution ratio
    match dims.1 with
    | .error m => ⟨[], dims.2, .error (.resolutionError m)⟩
    | .ok p =>
      let credit := creditBestEffort env
      let uploads := uploadLoop env.upload images 0
      match uploads.2 with
      | .error e => ⟨credit.1 ++ uploads.1, dims.2 ++ credit.2, .error e⟩
      | .ok uploadedImageIds =>
        let core : BlendCoreParam :=
          { model := model, prompt := '#' :: '#' :: prompt,
            sample_strength := sampleStrength, image_ratio := p.image_ratio,
            large_image_info :=
              { height := p.height, width := p.width,
                resolution_type := p.resolution_type } }
        let d : BlendDraft :=
          { core_param := core,
            ability_list := uploadedImageIds.map (fun imageId =>
              { name := "byte_edit", image_uri_list := [imageId],
                image_uri := imageId, uri := imageId,
                strength := sampleStrength }),
            prompt_placeholder_info_list := uploadedImageIds.enum.map
              (fun pr => { ability_index := pr.1 }) }
        let trace := credit.1 ++ uploads.1 ++ [.draftGenerateBlend d]
        match env.draftHistoryId with
        | .error m => ⟨trace, dims.2 ++ credit.2, .error (.requestThrown m)⟩
        | .ok none => ⟨trace, dims.2 ++ credit.2, .error .noHistoryId⟩
        | .ok (some h) =>
          ⟨trace, dims.2 ++ credit.2,
            .ok { draft := d, historyId := h, expectedItemCount := 1,
                  maxPollCount := 900 }⟩

/-- `generateJimeng40MultiImages` (src/unnamed/part_009 lines 597-766) up
to the poller configuration: it re-resolves the model, always goes through
`getResolutionParams`, extracts the target image count from the prompt, and
configures the poller with `expectedItemCount = targetImageCount` and
`maxPollCount = 600`. -/
def generateJimeng40MultiImagesRun {α : Type} (env : GenEnv α)
    (clientModel : String) (prompt : List Char)
    (ratio resolution : String) (sampleStrength : ℚ) (negativePrompt : String) :
    ImagesRun :=
  match getModel env.modelMapCN env.modelMapUS env.defaultModel clientModel
      env.isInternational with
  | .error m => ⟨[], [], .error (.modelError m)⟩
  | .ok model =>
    match getResolutionParams env.resolutionOptions resolution ratio with
    | .error m => ⟨[], [], .error (.resolutionError m)⟩
    | .ok p =>
      let d : GenDraft :=
        { generate_type := "generate",
          core_param :=
            { model := model, prompt := prompt,
              negative_prompt := negativePrompt, seed := env.seed,
              sample_strength := sampleStrength, image_ratio := p.image_ratio,
              large_image_info :=
                { height := p.height, width := p.width,
                  resolution_type := p.resolution_type } } }
      let trace : List Req := [.draftGenerateText d]
      match env.draftHistoryId with
      | .error m => ⟨trace, [], .error (.requestThrown m)⟩
      | .ok none => ⟨trace, [], .error .noHistoryId⟩
      | .ok (some h) =>
        ⟨trace, [],
          .ok { draft := d, historyId := h,
                expectedItemCount := targetImageCount prompt,
                maxPollCount := 600, usedMultiPath := true }⟩

/-- `generateImagesInternal` (src/unnamed/part_009 lines 386-595) up to the
poller configuration: model mapping, the nanobanana override or resolution
lookup, the credit check with no try/catch, the multi-image branch, and
otherwise the single generate draft with `expectedItemCount = 4` and
`maxPollCount = 900`. -/
def generateImagesInternalRun {α : Type} (env : GenEnv α) (clientModel : String)
    (prompt : List Char) (ratio resolution : String)
    (sampleStrength : ℚ) (negativePrompt : String) : ImagesRun :=
  match getModel env.modelMapCN env.modelMapUS env.defaultModel clientModel
      env.isInternational with
  | .error m => ⟨[], [], .error (.modelError m)⟩
  | .ok model =>
    let dims := resolveDims env.resolutionOptions clientModel resolution ratio
    match dims.1 with
    | .error m => ⟨[], dims.2, .error (.resolutionError m)⟩
    | .ok p =>
      let credit := creditStrict env
      match credit.2 with
      | .error m => ⟨credit.1, dims.2, .error (.requestThrown m)⟩
      | .ok _ =>
        if isJimeng40MultiImage clientModel prompt then
          let r := generateJimeng40MultiImagesRun env clientModel prompt
            ratio resolution sampleStrength negativePrompt
          ⟨credit.1 ++ r.trace, dims.2 ++ r.logs, r.outcome⟩
        else
          let d : GenDraft :=
            { generate_type := "generate",
              core_param :=
                { model := model, prompt := prompt,
                  negative_prompt := negativePrompt, seed := env.seed,
                  sample_strength := sampleStrength,
                  image_ratio := p.image_ratio,
                  large_image_info :=
                    { height := p.height, width := p.width,
                      resolution_type := p.resolution_type } } }
          let trace := credit.1 ++ [Req.draftGenerateText d]
          match env.draftHistoryId with
          | .error m => ⟨trace, dims.2, .error (.requestThrown m)⟩
          | .ok none => ⟨trace, dims.2, .error .noHistoryId⟩
          | .ok (some h) =>
            ⟨trace, dims.2,
              .ok { draft := d, historyId := h, expectedItemCount := 4,
                    maxPollCount := 900, usedMultiPath := false }⟩

/-- `generateImages` (src/unnamed/part_009 lines 363-384): resolves the
model once more (propagating its error) and delegates to
`generateImagesInternal` with the destructuring defaults applied. -/
def generateImagesRun {α : Type} (env : GenEnv α) (clientModel : String)
    (prompt : List Char) (opts : GenOptions) : ImagesRun :=
  match getModel env.modelMapCN env.modelMapUS env.defaultModel clientModel
      env.isInternational with
  | .error m => ⟨[], [], .error (.modelError m)⟩
  | .ok _ =>
    generateImagesInternalRun env clientModel prompt
      (opts.ratio.getD "1:1") (opts.resolution.getD "2k")
      (opts.sampleStrength.getD (mkRat 1 2)) (opts.negativePrompt.getD "")

/-! ### Shared helpers and concrete fixtures -/

/-- Whether an `Except` is a success, used to evaluate concrete runs. -/
def isOkE {ε α : Type} : Except ε α → Bool
  | .ok _ => true
  | .error _ => false

/-- A concrete resolution table fragment for witnesses (the real table is
environment data, see `ResolutionTable`). -/
def tableW : ResolutionTable :=
  [("2k", [("1:1", ⟨2048, 2048, 1⟩), ("16:9", ⟨2560, 1440, 3⟩)]),
   ("1k", [("1:1", ⟨1024, 1024, 1⟩)])]

/-- A concrete benign environment for witnesses: domestic token, every
remote call succeeds, each input `s` uploads to `"uri-" ++ s`. -/
def envW : GenEnv String :=
  { isInternational := false
    modelMapCN := [("jimeng-3.0", "mcn30"), ("jimeng-4.0", "mcn40")]
    modelMapUS := [("jimeng-3.0", "mus30")]
    defaultModel := "jimeng-3.0"
    resolutionOptions := tableW
    getCreditResult := .ok 10
    receiveCreditResult := .ok ()
    upload := fun s => ⟨[.getUploadToken], .ok ("uri-" ++ s)⟩
    seed := 2500000001
    draftHistoryId := .ok (some "h1") }

/-- Options left entirely to their destructuring defaults. -/
def optsNone : GenOptions := ⟨none, none, none, none⟩

example :
    isOkE (generateImageCompositionRun envW "jimeng-3.0" "猫".data ["a", "b"]
      optsNone).outcome = true := by decide

example :
    isOkE (generateImagesRun envW "jimeng-3.0" "猫".data optsNone).outcome = true := by
  decide

/-! ### C6 — getModel: international hard error, domestic fallback -/

/-- C6: on an international token an unknown model makes `getModel` raise
the hard error listing the supported models; on a domestic token an unknown
model falls back to the domestic table's mapping for the default model. -/
theorem getModel_unknown_model_behaviour :
    ∀ (mapCN mapUS : List (String × String)) (defaultModel m : String),
      (lookupTable mapUS m = none →
        getModel mapCN mapUS defaultModel m true =
          .error (unsupportedModelMessage mapUS m)) ∧
      (lookupTable mapCN m = none →
        getModel mapCN mapUS defaultModel m false =
          .ok (lookupTable mapCN defaultModel)) := by
  intro mapCN mapUS dm m
  constructor
  · intro h
    simp [getModel, h]
  · intro h
    simp [getModel, h, jsOrStr]

/-- Witness for C6 at a concrete pair of tables and an unknown model. -/
theorem getModel_unknown_model_behaviour_witness :
    getModel [("a", "ma")] [("b", "mb")] "a" "zzz" true =
      .error (unsupportedModelMessage [("b", "mb")] "zzz") ∧
    getModel [("a", "ma")] [("b", "mb")] "a" "zzz" false =
      .ok (lookupTable [("a", "ma")] "a") :=
  ⟨(getModel_unknown_model_behaviour [("a", "ma")] [("b", "mb")] "a" "zzz").1
      (by decide),
   (getModel_unknown_model_behaviour [("a", "ma")] [("b", "mb")] "a" "zzz").2
      (by decide)⟩

/-! ### C7 — video duration validation -/

/-- C7: `duration = 3` and `duration = 16` (and any non-integer or
out-of-range number) fail the `POST /v1/videos/generations` validator,
`duration = 4` and `15` pass, and on a multipart request a string duration
is parsed to an integer before the bound check, so the string `"10"` is
accepted. -/
theorem videos_duration_validation :
    ∀ (isMultiPart : Bool),
      validateDurationField isMultiPart (.num 3) = false ∧
      validateDurationField isMultiPart (.num 16) = false ∧
      (∀ q : ℚ, (q.den ≠ 1 ∨ q < 4 ∨ 15 < q) →
        validateDurationField isMultiPart (.num q) = false) ∧
      validateDurationField isMultiPart (.num 4) = true ∧
      validateDurationField isMultiPart (.num 15) = true ∧
      validateDurationField true (.str "10") = true := by
  intro m
  refine ⟨by cases m <;> decide, by cases m <;> decide, ?_,
    by cases m <;> decide, by cases m <;> decide, by decide⟩
  intro q hq
  simp only [validateDurationField, decide_eq_false_iff_not]
  rintro ⟨hden, hlow, hhigh⟩
  rcases hq with h | h | h
  · exact h hden
  · exact absurd hlow (not_le.mpr h)
  · exact absurd hhigh (not_le.mpr h)

/-- Witness for C7 at a concrete non-integer duration and the multipart
string `"10"`. -/
theorem videos_duration_validation_witness :
    ((mkRat 7 2).den ≠ 1 ∨ (mkRat 7 2) < 4 ∨ 15 < (mkRat 7 2)) ∧
    validateDurationField false (.num (mkRat 7 2)) = false ∧
    validateDurationField true (.str "10") = true :=
  ⟨Or.inl (by decide),
   (videos_duration_validation false).2.2.1 (mkRat 7 2) (Or.inl (by decide)),
   (videos_duration_validation false).2.2.2.2.2⟩

/-! ### C10 — filePaths takes precedence over file_paths -/

/-- C10: when both fields pass validation and `filePaths` is a non-empty
array it is the value forwarded to `generateVideo`, `file_paths` being
ignored; `file_paths` (defaulted to `[]`) is used only when `filePaths` is
absent or empty. -/
theorem videos_filePaths_precedence :
    ∀ (file_paths filePaths : Option (List String)),
      (∀ l, file_paths = some l → l.length ≤ 2) →
      (∀ l, filePaths = some l → l.length ≤ 2) →
      (∀ l, filePaths = some l → l ≠ [] →
        finalFilePaths file_paths filePaths = l) ∧
      ((filePaths = none ∨ filePaths = some []) →
        finalFilePaths file_paths filePaths = file_paths.getD []) := by
  intro fp fps _ _
  constructor
  · intro l hl hne
    subst hl
    simp [finalFilePaths, List.length_pos.mpr hne]
  · rintro (h | h) <;> subst h <;> simp [finalFilePaths]

/-- Witness for C10 at concrete bodies carrying both fields. -/
theorem videos_filePaths_precedence_witness :
    finalFilePaths (some ["a"]) (some ["b"]) = ["b"] ∧
    finalFilePaths (some ["a"]) (some []) = ["a"] :=
  ⟨(videos_filePaths_precedence (some ["a"]) (some ["b"])
      (by intro l hl; cases hl; decide) (by intro l hl; cases hl; decide)).1
      ["b"] rfl (by decide),
   by
    have h := (videos_filePaths_precedence (some ["a"]) (some [])
      (by intro l hl; cases hl; decide) (by intro l hl; cases hl; decide)).2
      (Or.inr rfl)
    simpa using h⟩

/-! ### C9 — normalizeImageInput key precedence -/

/-- C9: for an object-shaped image input the keys `b64_json`, `base64`,
`image_base64`, `image_bytes`, `url` are consulted in this fixed order; the
first of the four base64-family keys holding a string determines the
decoded buffer (later keys are ignored), and `url` is recursively
normalized only when none of the four is a string; with no usable key the
object passes through unchanged. -/
theorem normalizeImageInput_object_precedence :
    ∀ (e : B64Env) (o : ImageObject),
      (∀ s, firstBase64Key o = some s →
        normalizeImageInput e (.obj o) = .buffer (e.base64ToBuffer s)) ∧
      (firstBase64Key o = none →
        (∀ s, jvalString? o.url = some s →
          normalizeImageInput e (.obj o) = normalizeImageString e s) ∧
        (jvalString? o.url = none →
          normalizeImageInput e (.obj o) = .raw (.obj o))) := by
  intro e o
  rcases o with ⟨b1, b2, b3, b4, u⟩
  cases b1 <;> cases b2 <;> cases b3 <;> cases b4 <;> cases u <;>
    simp [normalizeImageInput, firstBase64Key, jvalString?]

/-- Witness for C9: an object carrying both `base64` and `url` decodes the
`base64` value, and a url-only object is normalized through the string
branch. -/
theorem normalizeImageInput_object_precedence_witness :
    firstBase64Key ⟨.num 1, .str "QUJD", .undef, .undef, .str "http://x"⟩ =
      some "QUJD" ∧
    normalizeImageInput ⟨fun _ => false, fun _ => false, fun s => [s.length]⟩
      (.obj ⟨.num 1, .str "QUJD", .undef, .undef, .str "http://x"⟩) =
      .buffer [4] ∧
    normalizeImageInput ⟨fun _ => false, fun _ => false, fun s => [s.length]⟩
      (.obj ⟨.undef, .undef, .undef, .undef, .str " http://x "⟩) =
      normalizeImageString ⟨fun _ => false, fun _ => false, fun s => [s.length]⟩
        " http://x " :=
  ⟨by decide,
   (normalizeImageInput_object_precedence
      ⟨fun _ => false, fun _ => false, fun s => [s.length]⟩
      ⟨.num 1, .str "QUJD", .undef, .undef, .str "http://x"⟩).1 "QUJD" (by decide),
   ((normalizeImageInput_object_precedence
      ⟨fun _ => false, fun _ => false, fun s => [s.length]⟩
      ⟨.undef, .undef, .undef, .undef, .str " http://x "⟩).2 (by decide)).1
      " http://x " (by decide)⟩

/-! ### C8 — the commit request hash covers the exact body -/

/-- C8: every CommitImageUpload request issued by `uploadImageBuffer`
carries an `x-amz-content-sha256` header equal to the SHA-256 hex digest of
the exact body string sent, and the same digest is the payload hash inside
the Authorization signature computation. -/
theorem commit_sha256_covers_exact_body :
    ∀ (sha256hex : String → String) (w : UploadWorld) (isInternational : Bool)
      (fileSize : Nat) (r : CommitRequest),
      UploadReq.commitUpload r ∈
        (uploadImageBufferRun sha256hex w isInternational fileSize).trace →
      r.xAmzContentSha256 = sha256hex r.body ∧
      r.signature.payloadHash = sha256hex r.body := by
  intro sha w intl size r hmem
  simp only [uploadImageBufferRun, createSignature] at hmem
  repeat' split at hmem
  all_goals
    simp only [List.mem_append, List.mem_singleton, List.mem_cons,
      List.not_mem_nil, or_false, false_or] at hmem
  all_goals
    first
    | (rcases hmem with h | h | h | h <;> (try cases h) <;> simp)
    | (rcases hmem with h | h | h <;> (try cases h) <;> simp)
    | (rcases hmem with h | h <;> (try cases h) <;> simp)
    | (cases hmem <;> simp)
    | simp_all

/-- A concrete hash stand-in for witnesses. -/
def shaW : String → String := fun s => "sha-" ++ toString s.length

/-- A concrete upload world in which every phase succeeds. -/
def worldOkW : UploadWorld :=
  { tokenResult := .ok ⟨"ak", "sk", "st", "svc", "space"⟩
    applyResponse :=
      .ok (true, ⟨none, some ⟨[⟨"store-uri", "auth"⟩], ["host.example"], "SESSION"⟩⟩)
    putResponse := .ok true
    commitResponse := .ok (true, ⟨none, some [⟨2000, "final-uri"⟩]⟩)
    timestamp := "t"
    commitTimestamp := "t2"
    randomStr := "r"
    getServiceId := fun s => s
    imagexHost := "https://imagex.example"
    awsRegion := "cn-north-1" }

/-- The body string of the commit request in `worldOkW`. -/
def commitBodyW : String := "\x7b\"SessionKey\":\"SESSION\"\x7d"

/-- The commit request URL in `worldOkW`. -/
def commitUrlW : String :=
  "https://imagex.example/?Action=CommitImageUpload&Version=2018-08-01&ServiceId=svc"

/-- The commit request issued in `worldOkW`. -/
def creqW : CommitRequest :=
  { url := commitUrlW
    xAmzContentSha256 := shaW commitBodyW
    body := commitBodyW
    signature := ⟨"POST", commitUrlW, shaW commitBodyW, "cn-north-1"⟩ }

example : (uploadImageBufferRun shaW worldOkW false 3).result = .ok "final-uri" := by
  decide

/-- Witness for C8 at a concrete upload world that reaches the commit
phase. -/
theorem commit_sha256_covers_exact_body_witness :
    UploadReq.commitUpload creqW ∈
      (uploadImageBufferRun shaW worldOkW false 3).trace ∧
    creqW.xAmzContentSha256 = shaW creqW.body ∧
    creqW.signature.payloadHash = shaW creqW.body :=
  ⟨by decide,
   (commit_sha256_covers_exact_body shaW worldOkW false 3 creqW (by decide)).1,
   (commit_sha256_covers_exact_body shaW worldOkW false 3 creqW (by decide)).2⟩

/-! ### Upload loop lemmas -/

/-- If the upload loop succeeds, every image succeeded, in order, with the
collected uri at its own index. -/
theorem uploadLoop_ok_get {α : Type} (up : α → UploadRun) :
    ∀ (xs : List α) (i : Nat) (ids : List String),
      (uploadLoop up xs i).2 = .ok ids →
      ids.length = xs.length ∧
      ∀ j (hja : j < xs.length) (hjb : j < ids.length),
        (up (xs.get ⟨j, hja⟩)).result = .ok (ids.get ⟨j, hjb⟩) := by
  intro xs
  induction xs with
  | nil =>
    intro i ids h
    simp [uploadLoop] at h
    subst h
    exact ⟨rfl, fun j hja _ => absurd hja (Nat.not_lt_zero j)⟩
  | cons x xs ih =>
    intro i ids h
    cases hx : (up x).result with
    | error e => simp [uploadLoop, hx] at h
    | ok uri =>
      cases hrest : (uploadLoop up xs (i + 1)).2 with
      | error e => simp [uploadLoop, hx, hrest] at h
      | ok uris =>
        simp [uploadLoop, hx, hrest] at h
        subst h
        obtain ⟨hlen, hget⟩ := ih (i + 1) uris hrest
        refine ⟨by simp [hlen], ?_⟩
        intro j hja hjb
        cases j with
        | zero => simpa using hx
        | succ j =>
          simpa using hget j (Nat.lt_of_succ_lt_succ hja) (Nat.lt_of_succ_lt_succ hjb)

/-- If some image's upload throws, the upload loop aborts with an error. -/
theorem uploadLoop_fails_of_upload_error {α : Type} (up : α → UploadRun) :
    ∀ (xs : List α) (i j : Nat) (hj : j < xs.length) (e : UploadErr),
      (up (xs.get ⟨j, hj⟩)).result = .error e →
      ∃ ge, (uploadLoop up xs i).2 = .error ge := by
  intro xs i j hj e hup
  cases hres : (uploadLoop up xs i).2 with
  | error ge => exact ⟨ge, rfl⟩
  | ok ids =>
    obtain ⟨_, hget⟩ := uploadLoop_ok_get up xs i ids hres
    obtain ⟨hlen, -⟩ := uploadLoop_ok_get up xs i ids hres
    have := hget j hj (hlen ▸ hj)
    rw [hup] at this
    cases this

/-- Every trace entry produced by the upload loop is an upload-phase
request. -/
theorem uploadLoop_trace_steps {α : Type} (up : α → UploadRun) :
    ∀ (xs : List α) (i : Nat) (r : Req), r ∈ (uploadLoop up xs i).1 →
      ∃ u, r = Req.uploadStep u := by
  intro xs
  induction xs with
  | nil => intro i r h; simp [uploadLoop] at h
  | cons x xs ih =>
    intro i r h
    cases hx : (up x).result with
    | error e =>
      simp [uploadLoop, hx] at h
      obtain ⟨u, -, hu⟩ := h
      exact ⟨u, hu.symm⟩
    | ok uri =>
      simp [uploadLoop, hx] at h
      rcases h with ⟨u, -, hu⟩ | h
      · exact ⟨u, hu.symm⟩
      · exact ih (i + 1) r h

/-- The best-effort credit step only issues credit requests. -/
theorem creditBestEffort_trace {α : Type} (env : GenEnv α) :
    ∀ r ∈ (creditBestEffort env).1, r = Req.creditGet ∨ r = Req.creditReceive := by
  intro r hr
  unfold creditBestEffort at hr
  repeat' split at hr
  all_goals simp_all

/-- A list with no image-to-image draft request. -/
theorem hasBlendDraftReq_eq_false {l : List Req}
    (h : ∀ r ∈ l, ∀ d, r ≠ Req.draftGenerateBlend d) :
    hasBlendDraftReq l = false := by
  simp only [hasBlendDraftReq, List.any_eq_false]
  intro r hr
  cases r with
  | draftGenerateBlend d => exact absurd rfl (h _ hr d)
  | uploadStep u => simp
  | creditGet => simp
  | creditReceive => simp
  | draftGenerateText d => simp

/-! ### C5 — a bad commit UriStatus aborts before draft submission -/

/-- C5: when the CommitImageUpload step returns a first result whose
`UriStatus` is not 2000, `uploadImageBuffer` throws the commit-status
error; and whenever an upload of any input image throws, the enclosing
`generateImageComposition` call fails without ever issuing an
`aigc_draft/generate` request. -/
theorem commit_bad_uristatus_no_draft :
    (∀ (sha256hex : String → String) (w : UploadWorld) (isInternational : Bool)
      (fileSize : Nat) (t : TokenResult) (body : ApplyBody) (ua : UploadAddress)
      (si : StoreInfo) (host : String) (cbody : CommitBody)
      (rs : List CommitEntry) (r0 : CommitEntry),
      w.tokenResult = .ok t →
      (t.access_key_id == "" || t.secret_access_key == "" ||
        t.session_token == "") = false →
      w.applyResponse = .ok (true, body) →
      body.responseError = none →
      body.uploadAddress = some ua →
      ua.StoreInfos.head? = some si →
      ua.UploadHosts.head? = some host →
      w.putResponse = .ok true →
      w.commitResponse = .ok (true, cbody) →
      cbody.responseError = none →
      cbody.results = some rs →
      rs.head? = some r0 →
      r0.UriStatus ≠ 2000 →
      (uploadImageBufferRun sha256hex w isInternational fileSize).result =
        .error (.commitBadStatus r0.UriStatus)) ∧
    (∀ {α : Type} (env : GenEnv α) (clientModel : String) (prompt : List Char)
      (images : List α) (opts : GenOptions) (j : Nat) (hj : j < images.length)
      (e : UploadErr),
      (env.upload (images.get ⟨j, hj⟩)).result = .error e →
      hasBlendDraftReq
        (generateImageCompositionRun env clientModel prompt images opts).trace =
        false ∧
      ∃ ge,
        (generateImageCompositionRun env clientModel prompt images opts).outcome =
          .error ge) := by
  constructor
  · intro sha w intl size t body ua si host cbody rs r0 htok hcreds happly herr
      haddr hsi hhost hput hcommit hcerr hres hhead hne
    simp only [uploadImageBufferRun, htok, hcreds, happly, herr, haddr, hsi,
      hhost, hput, hcommit, hcerr, hres, hhead, Bool.not_true, Bool.false_eq_true,
      if_false, beq_iff_eq, hne, if_true]
  · intro α env clientModel prompt images opts j hj e hup
    obtain ⟨ge, hge⟩ :=
      uploadLoop_fails_of_upload_error env.upload images 0 j hj e hup
    cases hgm : getModel env.modelMapCN env.modelMapUS env.defaultModel
        clientModel env.isInternational with
    | error m =>
      simp [generateImageCompositionRun, hgm, hasBlendDraftReq]
    | ok model =>
      cases hdim : (resolveDims env.resolutionOptions clientModel
          (opts.resolution.getD "2k") (opts.ratio.getD "1:1")).1 with
      | error m =>
        simp [generateImageCompositionRun, hgm, hdim, hasBlendDraftReq]
      | ok p =>
        refine ⟨?_, ?_⟩
        · simp only [generateImageCompositionRun, hgm, hdim, hge]
          refine hasBlendDraftReq_eq_false ?_
          intro r hr d
          rcases List.mem_append.mp hr with h | h
          · rcases creditBestEffort_trace env r h with h' | h' <;> simp [h']
          · obtain ⟨u, hu⟩ := uploadLoop_trace_steps env.upload images 0 r h
            simp [hu]
        · refine ⟨ge, ?_⟩
          simp only [generateImageCompositionRun, hgm, hdim, hge]

/-- `worldOkW` with the commit step answering `UriStatus = 4001`. -/
def worldBadW : UploadWorld :=
  { worldOkW with commitResponse := .ok (true, ⟨none, some [⟨4001, "u"⟩]⟩) }

/-- A generation environment whose uploads run against `worldBadW`. -/
def envBadUploadW : GenEnv String :=
  { envW with upload := fun _ => uploadImageBufferRun shaW worldBadW false 3 }

/-- Witness for C5: the concrete 4001 commit aborts the upload, and the
enclosing composition call issues no draft request. -/
theorem commit_bad_uristatus_no_draft_witness :
    (uploadImageBufferRun shaW worldBadW false 3).result =
      .error (.commitBadStatus 4001) ∧
    hasBlendDraftReq
      (generateImageCompositionRun envBadUploadW "jimeng-3.0" "猫".data ["a"]
        optsNone).trace = false ∧
    ∃ ge,
      (generateImageCompositionRun envBadUploadW "jimeng-3.0" "猫".data ["a"]
        optsNone).outcome = .error ge :=
  ⟨commit_bad_uristatus_no_draft.1 shaW worldBadW false 3
      ⟨"ak", "sk", "st", "svc", "space"⟩
      ⟨none, some ⟨[⟨"store-uri", "auth"⟩], ["host.example"], "SESSION"⟩⟩
      ⟨[⟨"store-uri", "auth"⟩], ["host.example"], "SESSION"⟩
      ⟨"store-uri", "auth"⟩ "host.example" ⟨none, some [⟨4001, "u"⟩]⟩
      [⟨4001, "u"⟩] ⟨4001, "u"⟩ rfl (by decide) rfl rfl rfl rfl rfl rfl rfl rfl
      rfl rfl (by decide),
   (commit_bad_uristatus_no_draft.2 envBadUploadW "jimeng-3.0" "猫".data ["a"]
      optsNone 0 (by decide) (.commitBadStatus 4001) (by decide)).1,
   (commit_bad_uristatus_no_draft.2 envBadUploadW "jimeng-3.0" "猫".data ["a"]
      optsNone 0 (by decide) (.commitBadStatus 4001) (by decide)).2⟩

/-! ### C1 — the blend draft mirrors the inputs positionally -/

/-- C1: every blend draft submitted by `generateImageComposition` for N
input images carries exactly N `ability_list` entries whose `image_uri`,
`uri` and `image_uri_list` are the uri uploaded for the i-th client input,
in client order, and exactly N `prompt_placeholder_info_list` entries whose
`ability_index` values are exactly `0..N-1`. -/
theorem blend_draft_matches_inputs :
    ∀ {α : Type} (env : GenEnv α) (clientModel : String) (prompt : List Char)
      (images : List α) (opts : GenOptions) (d : BlendDraft),
      Req.draftGenerateBlend d ∈
        (generateImageCompositionRun env clientModel prompt images opts).trace →
      d.ability_list.length = images.length ∧
      d.prompt_placeholder_info_list.length = images.length ∧
      (∀ j (hja : j < images.length) (hjb : j < d.ability_list.length),
        ∃ uri, (env.upload (images.get ⟨j, hja⟩)).result = .ok uri ∧
          (d.ability_list.get ⟨j, hjb⟩).image_uri = uri ∧
          (d.ability_list.get ⟨j, hjb⟩).uri = uri ∧
          (d.ability_list.get ⟨j, hjb⟩).image_uri_list = [uri]) ∧
      (∀ j (hj : j < d.prompt_placeholder_info_list.length),
        (d.prompt_placeholder_info_list.get ⟨j, hj⟩).ability_index = j) := by
  intro α env clientModel prompt images opts d hmem
  cases hgm : getModel env.modelMapCN env.modelMapUS env.defaultModel
      clientModel env.isInternational with
  | error m => simp [generateImageCompositionRun, hgm] at hmem
  | ok model =>
  cases hdim : (resolveDims env.resolutionOptions clientModel
      (opts.resolution.getD "2k") (opts.ratio.getD "1:1")).1 with
  | error m => simp [generateImageCompositionRun, hgm, hdim] at hmem
  | ok p =>
  have hnc : Req.draftGenerateBlend d ∉ (creditBestEffort env).1 := by
    intro h
    rcases creditBestEffort_trace env _ h with h' | h' <;> cases h'
  have hnu : Req.draftGenerateBlend d ∉ (uploadLoop env.upload images 0).1 := by
    intro h
    obtain ⟨u, hu⟩ := uploadLoop_trace_steps env.upload images 0 _ h
    cases hu
  cases hup : (uploadLoop env.upload images 0).2 with
  | error e =>
    simp only [generateImageCompositionRun, hgm, hdim, hup,
      List.mem_append] at hmem
    rcases hmem with h | h
    · exact absurd h hnc
    · exact absurd h hnu
  | ok ids =>
    have hdraft :
        d = { core_param :=
                { model := model, prompt := '#' :: '#' :: prompt,
                  sample_strength := opts.sampleStrength.getD (mkRat 1 2),
                  image_ratio := p.image_ratio,
                  large_image_info :=
                    { height := p.height, width := p.width,
                      resolution_type := p.resolution_type } },
              ability_list := ids.map (fun imageId =>
                { name := "byte_edit", image_uri_list := [imageId],
                  image_uri := imageId, uri := imageId,
                  strength := opts.sampleStrength.getD (mkRat 1 2) }),
              prompt_placeholder_info_list := ids.enum.map
                (fun pr => { ability_index := pr.1 }) } := by
      cases hdr : env.draftHistoryId with
      | error m =>
        simp only [generateImageCompositionRun, hgm, hdim, hup, hdr,
          List.mem_append, List.mem_singleton] at hmem
        rcases hmem with (h | h) | h
        · exact absurd h hnc
        · exact absurd h hnu
        · exact Req.draftGenerateBlend.inj h
      | ok oh =>
        cases oh with
        | none =>
          simp only [generateImageCompositionRun, hgm, hdim, hup, hdr,
            List.mem_append, List.mem_singleton] at hmem
          rcases hmem with (h | h) | h
          · exact absurd h hnc
          · exact absurd h hnu
          · exact Req.draftGenerateBlend.inj h
        | some h0 =>
          simp only [generateImageCompositionRun, hgm, hdim, hup, hdr,
            List.mem_append, List.mem_singleton] at hmem
          rcases hmem with (h | h) | h
          · exact absurd h hnc
          · exact absurd h hnu
          · exact Req.draftGenerateBlend.inj h
    subst hdraft
    obtain ⟨hlen, hget⟩ := uploadLoop_ok_get env.upload images 0 ids hup
    refine ⟨by simpa using hlen, by simp [List.enum_length, hlen], ?_, ?_⟩
    · intro j hja hjb
      have hjb' : j < ids.length := by simpa using hjb
      refine ⟨ids.get ⟨j, hjb'⟩, hget j hja hjb', ?_, ?_, ?_⟩ <;>
        simp [List.get_eq_getElem, List.getElem_map]
    · intro j hj
      have hj' : j < ids.enum.length := by simpa using hj
      simp [List.get_eq_getElem, List.getElem_map, List.getElem_enum]

/-- The blend draft submitted by `envW` for inputs `["a", "b"]`. -/
def draftW : BlendDraft :=
  { core_param :=
      { model := some "mcn30", prompt := '#' :: '#' :: "猫".data,
        sample_strength := mkRat 1 2, image_ratio := 1,
        large_image_info := { height := 2048, width := 2048, resolution_type := "2k" } }
    ability_list :=
      [⟨"byte_edit", ["uri-a"], "uri-a", "uri-a", mkRat 1 2⟩,
       ⟨"byte_edit", ["uri-b"], "uri-b", "uri-b", mkRat 1 2⟩]
    prompt_placeholder_info_list := [⟨0⟩, ⟨1⟩] }

/-- Witness for C1 at a concrete two-image composition. -/
theorem blend_draft_matches_inputs_witness :
    Req.draftGenerateBlend draftW ∈
      (generateImageCompositionRun envW "jimeng-3.0" "猫".data ["a", "b"]
        optsNone).trace ∧
    draftW.ability_list.length = (["a", "b"] : List String).length ∧
    draftW.prompt_placeholder_info_list.length = (["a", "b"] : List String).length :=
  ⟨by decide,
   (blend_draft_matches_inputs envW "jimeng-3.0" "猫".data ["a", "b"] optsNone
      draftW (by decide)).1,
   (blend_draft_matches_inputs envW "jimeng-3.0" "猫".data ["a", "b"] optsNone
      draftW (by decide)).2.1⟩

/-! ### C2 — jimeng-4.0 multi-image recognition and expected item count -/

/-- C2: on model `jimeng-4.0`, a prompt containing `连续`, `绘本` or `故事`
or matching `\d+张` takes the multi-image path, and the poller is
configured with `expectedItemCount = targetImageCount prompt`, the integer
extracted from the `\d+张` match; with no such numeric match the count
defaults to 4; the prompt `"生成6张关于..."` yields 6. -/
theorem jimeng40_multi_image_count :
    (∀ {α : Type} (env : GenEnv α) (prompt : List Char)
      (ratio resolution : String) (ss : ℚ) (np : String),
      (containsSeq "连续".data prompt || containsSeq "绘本".data prompt ||
        containsSeq "故事".data prompt || hasDigitsZhang prompt) = true →
      ∀ s,
        (generateImagesInternalRun env "jimeng-4.0" prompt ratio resolution
          ss np).outcome = .ok s →
        s.usedMultiPath = true ∧ s.expectedItemCount = targetImageCount prompt) ∧
    (∀ p : List Char, hasDigitsZhang p = false → targetImageCount p = 4) ∧
    targetImageCount "生成6张关于...".data = 6 := by
  refine ⟨?_, ?_, by decide⟩
  · intro α env prompt ratio resolution ss np hpat s hout
    have hmulti : isJimeng40MultiImage "jimeng-4.0" prompt = true := by
      simp [isJimeng40MultiImage]
      simpa using hpat
    cases hgm : getModel env.modelMapCN env.modelMapUS env.defaultModel
        "jimeng-4.0" env.isInternational with
    | error m => simp [generateImagesInternalRun, hgm] at hout
    | ok model =>
    cases hdim : (resolveDims env.resolutionOptions "jimeng-4.0"
        resolution ratio).1 with
    | error m => simp [generateImagesInternalRun, hgm, hdim] at hout
    | ok p =>
    cases hcs : (creditStrict env).2 with
    | error m => simp [generateImagesInternalRun, hgm, hdim, hcs] at hout
    | ok u =>
    cases hres : getResolutionParams env.resolutionOptions resolution ratio with
    | error m =>
      simp [generateImagesInternalRun, generateJimeng40MultiImagesRun, hgm,
        hdim, hcs, hmulti, hres] at hout
    | ok p2 =>
    cases hdr : env.draftHistoryId with
    | error m =>
      simp [generateImagesInternalRun, generateJimeng40MultiImagesRun, hgm,
        hdim, hcs, hmulti, hres, hdr] at hout
    | ok oh =>
      cases oh with
      | none =>
        simp [generateImagesInternalRun, generateJimeng40MultiImagesRun, hgm,
          hdim, hcs, hmulti, hres, hdr] at hout
      | some h0 =>
        simp only [generateImagesInternalRun, generateJimeng40MultiImagesRun,
          hgm, hdim, hcs, hmulti, hres, hdr, if_true] at hout
        cases hout
        exact ⟨rfl, rfl⟩
  · intro p h
    cases hf : firstDigitsZhang p with
    | none => simp [targetImageCount, hf]
    | some ds => simp [hasDigitsZhang, hf] at h

/-- Witness for C2 at the concrete prompt `"生成6张关于..."`. -/
theorem jimeng40_multi_image_count_witness :
    ∃ s,
      (generateImagesInternalRun envW "jimeng-4.0" "生成6张关于...".data
        "1:1" "2k" (mkRat 1 2) "").outcome = Except.ok s ∧
      s.usedMultiPath = true ∧ s.expectedItemCount = 6 := by
  have hok : isOkE (generateImagesInternalRun envW "jimeng-4.0"
      "生成6张关于...".data "1:1" "2k" (mkRat 1 2) "").outcome = true := by decide
  rcases hres : (generateImagesInternalRun envW "jimeng-4.0"
      "生成6张关于...".data "1:1" "2k" (mkRat 1 2) "").outcome with e | s
  · rw [hres] at hok
    simp [isOkE] at hok
  · refine ⟨s, rfl, ?_, ?_⟩
    · exact ((jimeng40_multi_image_count.1 envW "生成6张关于...".data "1:1" "2k"
        (mkRat 1 2) "" (by decide)) s hres).1
    · have h2 := ((jimeng40_multi_image_count.1 envW "生成6张关于...".data "1:1"
        "2k" (mkRat 1 2) "" (by decide)) s hres).2
      rw [h2]
      decide

/-! ### C3 — the nanobanana override -/

/-- C3: whatever `resolution`/`ratio` options the client supplies, a
`nanobanana` text-to-image or image-to-image call that reaches submission
carries `width = 1024`, `height = 1024`, `image_ratio = 1`,
`resolution_type = "2k"` in its draft core parameters, and the override
warning is logged. -/
theorem nanobanana_forces_1024_2k :
    ∀ {α : Type} (env : GenEnv α) (prompt : List Char) (opts : GenOptions),
      (∀ s,
        (generateImagesRun env "nanobanana" prompt opts).outcome = .ok s →
        s.draft.core_param.large_image_info.width = 1024 ∧
        s.draft.core_param.large_image_info.height = 1024 ∧
        s.draft.core_param.image_ratio = 1 ∧
        s.draft.core_param.large_image_info.resolution_type = "2k" ∧
        LogEntry.nanobananaOverride ∈
          (generateImagesRun env "nanobanana" prompt opts).logs) ∧
      (∀ (images : List α) s,
        (generateImageCompositionRun env "nanobanana" prompt images
          opts).outcome = .ok s →
        s.draft.core_param.large_image_info.width = 1024 ∧
        s.draft.core_param.large_image_info.height = 1024 ∧
        s.draft.core_param.image_ratio = 1 ∧
        s.draft.core_param.large_image_info.resolution_type = "2k" ∧
        LogEntry.nanobananaOverride ∈
          (generateImageCompositionRun env "nanobanana" prompt images
            opts).logs) := by
  intro α env prompt opts
  have hnb : (("nanobanana" : String) == "nanobanana") = true := by decide
  have hnm : isJimeng40MultiImage "nanobanana" prompt = false := by
    have h : (("nanobanana" : String) == "jimeng-4.0") = false := by decide
    simp [isJimeng40MultiImage, h]
  constructor
  · intro s hout
    cases hgm : getModel env.modelMapCN env.modelMapUS env.defaultModel
        "nanobanana" env.isInternational with
    | error m => simp [generateImagesRun, hgm] at hout
    | ok model =>
    cases hcs : (creditStrict env).2 with
    | error m =>
      simp [generateImagesRun, generateImagesInternalRun, resolveDims, hnb,
        hgm, hcs] at hout
    | ok u =>
    cases hdr : env.draftHistoryId with
    | error m =>
      simp [generateImagesRun, generateImagesInternalRun, resolveDims, hnb,
        hgm, hcs, hnm, hdr] at hout
    | ok oh =>
      cases oh with
      | none =>
        simp [generateImagesRun, generateImagesInternalRun, resolveDims, hnb,
          hgm, hcs, hnm, hdr] at hout
      | some h0 =>
        simp only [generateImagesRun, generateImagesInternalRun, resolveDims,
          hnb, hgm, hcs, hnm, hdr, if_true, Bool.false_eq_true, if_false] at hout
        cases hout
        refine ⟨rfl, rfl, rfl, rfl, ?_⟩
        simp [generateImagesRun, generateImagesInternalRun, resolveDims, hnb,
          hgm, hcs, hnm, hdr]
  · intro images s hout
    cases hgm : getModel env.modelMapCN env.modelMapUS env.defaultModel
        "nanobanana" env.isInternational with
    | error m => simp [generateImageCompositionRun, hgm] at hout
    | ok model =>
    cases hup : (uploadLoop env.upload images 0).2 with
    | error e =>
      simp [generateImageCompositionRun, resolveDims, hnb, hgm, hup] at hout
    | ok ids =>
    cases hdr : env.draftHistoryId with
    | error m =>
      simp [generateImageCompositionRun, resolveDims, hnb, hgm, hup,
        hdr] at hout
    | ok oh =>
      cases oh with
      | none =>
        simp [generateImageCompositionRun, resolveDims, hnb, hgm, hup,
          hdr] at hout
      | some h0 =>
        simp only [generateImageCompositionRun, resolveDims, hnb, hgm, hup,
          hdr, if_true] at hout
        cases hout
        refine ⟨rfl, rfl, rfl, rfl, ?_⟩
        simp [generateImageCompositionRun, resolveDims, hnb, hgm, hup, hdr]

/-- Witness for C3: `nanobanana` with client options `4k`/`16:9` still
submits `1024x1024`, ratio code 1, `"2k"`, and logs the override. -/
theorem nanobanana_forces_1024_2k_witness :
    ∃ s,
      (generateImagesRun envW "nanobanana" "猫".data
        ⟨some "16:9", some "4k", some (mkRat 1 2), none⟩).outcome =
        Except.ok s ∧
      s.draft.core_param.large_image_info.width = 1024 ∧
      s.draft.core_param.large_image_info.resolution_type = "2k" ∧
      LogEntry.nanobananaOverride ∈
        (generateImagesRun envW "nanobanana" "猫".data
          ⟨some "16:9", some "4k", some (mkRat 1 2), none⟩).logs := by
  have hok : isOkE (generateImagesRun envW "nanobanana" "猫".data
      ⟨some "16:9", some "4k", some (mkRat 1 2), none⟩).outcome = true := by
    decide
  rcases hres : (generateImagesRun envW "nanobanana" "猫".data
      ⟨some "16:9", some "4k", some (mkRat 1 2), none⟩).outcome with e | s
  · rw [hres] at hok
    simp [isOkE] at hok
  · obtain ⟨h1, -, -, h4, h5⟩ :=
      (nanobanana_forces_1024_2k envW "猫".data
        ⟨some "16:9", some "4k", some (mkRat 1 2), none⟩).1 s hres
    exact ⟨s, rfl, h1, h4, h5⟩

/-! ### C4 — the credit check is best-effort only for composition -/

/-- `envW` with a failing `getCredit`. -/
def envC4 : GenEnv String :=
  { envW with getCreditResult := .error "getCredit failed" }

/-- Counterexample to C4 as stated: in `generateImages` (text-to-image) the
credit calls are not guarded by a try/catch, so a failing `getCredit`
propagates to the caller and the call never reaches draft submission. -/
theorem images_credit_failure_propagates_counterexample :
    (generateImagesRun envC4 "jimeng-3.0" "猫".data optsNone).outcome =
      .error (.requestThrown "getCredit failed") ∧
    hasDraftReq (generateImagesRun envC4 "jimeng-3.0" "猫".data optsNone).trace =
      false := by
  decide

/-- C4 amended: the pre-submission credit check is best-effort only in
`generateImageComposition`, whose outcome is entirely independent of the
credit results and which logs a `getCredit`/`receiveCredit` failure; in
`generateImages` a failing `getCredit`, or a failing `receiveCredit` when
the balance is not positive, propagates to the caller and no draft request
is issued. -/
theorem credit_check_amended :
    (∀ {α : Type} (env : GenEnv α) (c : Except String Int)
      (r : Except String Unit) (clientModel : String) (prompt : List Char)
      (images : List α) (opts : GenOptions),
      (generateImageCompositionRun
        { env with getCreditResult := c, receiveCreditResult := r }
        clientModel prompt images opts).outcome =
      (generateImageCompositionRun env clientModel prompt images opts).outcome) ∧
    (∀ {α : Type} (env : GenEnv α) (m : String) (clientModel : String)
      (prompt : List Char) (images : List α) (opts : GenOptions)
      (mm : Option String) (p : ResParams),
      getModel env.modelMapCN env.modelMapUS env.defaultModel clientModel
        env.isInternational = .ok mm →
      (resolveDims env.resolutionOptions clientModel (opts.resolution.getD "2k")
        (opts.ratio.getD "1:1")).1 = .ok p →
      (env.getCreditResult = .error m ∨
        ∃ t, env.getCreditResult = .ok t ∧ t ≤ 0 ∧
          env.receiveCreditResult = .error m) →
      LogEntry.creditCheckFailed m ∈
        (generateImageCompositionRun env clientModel prompt images opts).logs) ∧
    (∀ {α : Type} (env : GenEnv α) (m : String) (clientModel : String)
      (prompt : List Char) (opts : GenOptions) (mm : Option String)
      (p : ResParams),
      getModel env.modelMapCN env.modelMapUS env.defaultModel clientModel
        env.isInternational = .ok mm →
      (resolveDims env.resolutionOptions clientModel (opts.resolution.getD "2k")
        (opts.ratio.getD "1:1")).1 = .ok p →
      (env.getCreditResult = .error m ∨
        ∃ t, env.getCreditResult = .ok t ∧ t ≤ 0 ∧
          env.receiveCreditResult = .error m) →
      (generateImagesRun env clientModel prompt opts).outcome =
        .error (.requestThrown m) ∧
      hasDraftReq (generateImagesRun env clientModel prompt opts).trace =
        false) := by
  refine ⟨?_, ?_, ?_⟩
  · intro α env c r cm prompt images opts
    obtain ⟨intl, cn, us, dm, tab, gc, rc, up, sd, dr⟩ := env
    cases hgm : getModel cn us dm cm intl with
    | error m => simp [generateImageCompositionRun, hgm]
    | ok model =>
    cases hdim : (resolveDims tab cm (opts.resolution.getD "2k")
        (opts.ratio.getD "1:1")).1 with
    | error m => simp [generateImageCompositionRun, hgm, hdim]
    | ok p =>
    cases hup : (uploadLoop up images 0).2 with
    | error e => simp [generateImageCompositionRun, hgm, hdim, hup]
    | ok ids =>
    cases dr with
    | error m => simp [generateImageCompositionRun, hgm, hdim, hup]
    | ok oh => cases oh <;> simp [generateImageCompositionRun, hgm, hdim, hup]
  · intro α env m cm prompt images opts mm p hgm hdim hc
    have hcred : (creditBestEffort env).2 = [LogEntry.creditCheckFailed m] := by
      rcases hc with hc | ⟨t, hct, hle, hrc⟩
      · simp [creditBestEffort, hc]
      · simp [creditBestEffort, hct, if_pos hle, hrc]
    cases hup : (uploadLoop env.upload images 0).2 with
    | error e =>
      simp [generateImageCompositionRun, hgm, hdim, hup, hcred]
    | ok ids =>
      cases hdr : env.draftHistoryId with
      | error m2 => simp [generateImageCompositionRun, hgm, hdim, hup, hdr, hcred]
      | ok oh =>
        cases oh <;> simp [generateImageCompositionRun, hgm, hdim, hup, hdr, hcred]
  · intro α env m cm prompt opts mm p hgm hdim hc
    have hcs : creditStrict env = (match env.getCreditResult with
        | .error _ => [Req.creditGet]
        | .ok _ => [Req.creditGet, Req.creditReceive], .error m) := by
      rcases hc with hc | ⟨t, hct, hle, hrc⟩
      · simp [creditStrict, hc]
      · simp [creditStrict, hct, if_pos hle, hrc]
    rcases hc with hc | ⟨t, hct, hle, hrc⟩ <;>
    · constructor
      · simp [generateImagesRun, generateImagesInternalRun, hgm, hdim, hcs]
      · simp [generateImagesRun, generateImagesInternalRun, hgm, hdim, hcs,
          hasDraftReq]
        first
        | simp [hc]
        | simp [hct]

/-- Witness for the amended C4 at concrete environments. -/
theorem credit_check_amended_witness :
    (generateImageCompositionRun
      { envW with getCreditResult := .error "x", receiveCreditResult := .ok () }
      "jimeng-3.0" "猫".data ["a"] optsNone).outcome =
      (generateImageCompositionRun envW "jimeng-3.0" "猫".data ["a"]
        optsNone).outcome ∧
    LogEntry.creditCheckFailed "x" ∈
      (generateImageCompositionRun { envW with getCreditResult := .error "x" }
        "jimeng-3.0" "猫".data ["a"] optsNone).logs ∧
    LogEntry.creditCheckFailed "y" ∈
      (generateImageCompositionRun
        { envW with getCreditResult := .ok 0, receiveCreditResult := .error "y" }
        "jimeng-3.0" "猫".data ["a"] optsNone).logs ∧
    (generateImagesRun envC4 "jimeng-3.0" "猫".data optsNone).outcome =
      .error (.requestThrown "getCredit failed") ∧
    hasDraftReq (generateImagesRun envC4 "jimeng-3.0" "猫".data optsNone).trace =
      false :=
  ⟨credit_check_amended.1 envW (.error "x") (.ok ()) "jimeng-3.0" "猫".data
      ["a"] optsNone,
   credit_check_amended.2.1 { envW with getCreditResult := .error "x" } "x"
      "jimeng-3.0" "猫".data ["a"] optsNone (some "mcn30") ⟨2048, 2048, 1, "2k"⟩
      (by decide) (by decide) (Or.inl rfl),
   credit_check_amended.2.1
      { envW with getCreditResult := .ok 0, receiveCreditResult := .error "y" }
      "y" "jimeng-3.0" "猫".data ["a"] optsNone (some "mcn30")
      ⟨2048, 2048, 1, "2k"⟩ (by decide) (by decide)
      (Or.inr ⟨0, rfl, by decide, rfl⟩),
   (credit_check_amended.2.2 envC4 "getCredit failed" "jimeng-3.0" "猫".data
      optsNone (some "mcn30") ⟨2048, 2048, 1, "2k"⟩ (by decide) (by decide)
      (Or.inl rfl)).1,
   (credit_check_amended.2.2 envC4 "getCredit failed" "jimeng-3.0" "猫".data
      optsNone (some "mcn30") ⟨2048, 2048, 1, "2k"⟩ (by decide) (by decide)
      (Or.inl rfl)).2⟩

end JimengApi
